import Mathlib

/-!
Verification of the wait-duration resolution subsystem of the
step-functions interpreter: the `SecondsPath` and `SecondsPathVar`
resolvers of `seconds_path.py`, together with the failure-event
plumbing they use.

Modelling conventions:
* Python runtime values extracted from execution data are embedded as
  `JsonValue`.  A Python `float` is carried together with its `str`
  rendering; the validator never inspects a float's numeric value, only
  its type tag, so this loses nothing.
* The `Environment` is its evaluation stack.  The Python stack is a list
  indexed from the end (`stack[-1]` is the top, `pop` removes the last
  element); here the head of the Lean list is the top of the stack, so
  `stack[-1]` reads the head and `pop` removes it.
* Raising `FailureEventException` is embedded as `Except.error`; the
  unguarded `env.stack[-1]` on an empty stack (a raw `IndexError`, not a
  failure event) is a distinguished `ResolveResult.indexError` outcome.
* `extract_json` and `VariableSample.eval` are external collaborators
  (outside this repository's core): resolution is parameterised by the
  extraction function, respectively by the single value that the
  expression evaluation pushes onto the stack.
-/

/-- A runtime value of the execution data model (the values Python code
can see after JSON extraction, plus Python booleans and floats). -/
inductive JsonValue where
  | null : JsonValue
  | bool (b : Bool) : JsonValue
  | int (n : Int) : JsonValue
  | float (render : String) : JsonValue
  | str (s : String) : JsonValue
  | arr (items : List JsonValue) : JsonValue
  | obj (fields : List (String × JsonValue)) : JsonValue

mutual

/-- Python `repr` of a runtime value (used for elements of containers). -/
def pyRepr : JsonValue → String
  | JsonValue.null => "None"
  | JsonValue.bool true => "True"
  | JsonValue.bool false => "False"
  | JsonValue.int n => toString n
  | JsonValue.float r => r
  | JsonValue.str s => "'" ++ s ++ "'"
  | JsonValue.arr items => "[" ++ pyReprItems items ++ "]"
  | JsonValue.obj fields => "\x7b" ++ pyReprFields fields ++ "\x7d"

/-- Comma-separated `repr` of list elements. -/
def pyReprItems : List JsonValue → String
  | [] => ""
  | [v] => pyRepr v
  | v :: rest => pyRepr v ++ ", " ++ pyReprItems rest

/-- Comma-separated `repr` of dictionary entries. -/
def pyReprFields : List (String × JsonValue) → String
  | [] => ""
  | [(k, v)] => "'" ++ k ++ "': " ++ pyRepr v
  | (k, v) :: rest => "'" ++ k ++ "': " ++ pyRepr v ++ ", " ++ pyReprFields rest

end

/-- Python `str` of a runtime value, as interpolated by the f-string
`f"{self.path} == {seconds}"`: like `repr` except that a top-level
string is rendered without quotes. -/
def pyStr : JsonValue → String
  | JsonValue.str s => s
  | v => pyRepr v

/-- Python `isinstance(x, int)`.  In Python, `bool` is a subclass of
`int`, so booleans satisfy this check. -/
def isinstance_int : JsonValue → Bool
  | JsonValue.int _ => true
  | JsonValue.bool _ => true
  | _ => false

/-- The integer that Python's `>=` comparison sees for a value passing
`isinstance(x, int)` (booleans compare as 1 and 0).  Other constructors
never reach the comparison because `and` short-circuits; the value
returned for them is irrelevant. -/
def pyIntValue : JsonValue → Int
  | JsonValue.int n => n
  | JsonValue.bool b => if b then 1 else 0
  | _ => 0

/-- History event types (`HistoryEventType` of the service API; only the
members relevant here are listed). -/
inductive HistoryEventType where
  | ExecutionFailed : HistoryEventType
  | ExecutionSucceeded : HistoryEventType

/-- Modelled from the spec: the error-name taxonomy
(`StatesErrorNameType`) is not under `src/`; the spec names a single
runtime error category used by wait validation, `States.Runtime`. -/
inductive StatesErrorNameType where
  | StatesRuntime : StatesErrorNameType

/-- Modelled from the spec: `StatesErrorNameType.to_name` renders the
canonical name of the category; for the runtime category the spec gives
`States.Runtime`. -/
def StatesErrorNameType.to_name : StatesErrorNameType → String
  | StatesErrorNameType.StatesRuntime => "States.Runtime"

/-- A typed error name (`StatesErrorName(typ=...)`). -/
structure StatesErrorName where
  typ : StatesErrorNameType

/-- The `executionFailedEventDetails` payload: error code string and
free-text cause. -/
structure ExecutionFailedEventDetails where
  error : String
  cause : String

/-- The `EventDetails` wrapper around the failure payload. -/
structure EventDetails where
  executionFailedEventDetails : ExecutionFailedEventDetails

/-- A failure event.  The source constructor also receives the
`Environment` for context; per the failure-model contract, construction
does not mutate the environment and the exposed event shape is
`(errorName, eventType, details)`, so the context reference is not
modelled as data of the event. -/
structure FailureEvent where
  error_name : StatesErrorName
  event_type : HistoryEventType
  event_details : EventDetails

/-- The cause string recorded in a failure event's details. -/
def FailureEvent.cause (ev : FailureEvent) : String :=
  ev.event_details.executionFailedEventDetails.cause

/-- Per-execution environment: the evaluation stack (head = top). -/
structure Environment where
  stack : List JsonValue

/-- The configuration of a path-based wait specification: the state of
`self` after `SecondsPath.__init__` (one field, the path string). -/
structure SecondsPathConfig where
  path : String

/-- `SecondsPath._validate_seconds_value`: accept when
`isinstance(seconds, int) and seconds >= 0`; otherwise raise a failure
event whose cause distinguishes the non-integral case from the negative
case, rendering `f"{self.path} == {seconds}"`. -/
def SecondsPath.validate_seconds_value (path : String) (seconds : JsonValue) :
    Except FailureEvent Unit :=
  if isinstance_int seconds && decide (0 ≤ pyIntValue seconds) then
    Except.ok ()
  else
    let assignment_description : String := path ++ " == " ++ pyStr seconds
    let cause : String :=
      if !isinstance_int seconds then
        "The SecondsPath parameter cannot be parsed as a long value: " ++
          assignment_description
      else
        "The SecondsPath parameter references a negative value: " ++
          assignment_description
    Except.error
      { error_name := { typ := StatesErrorNameType.StatesRuntime }
        event_type := HistoryEventType.ExecutionFailed
        event_details :=
          { executionFailedEventDetails :=
              { error := StatesErrorNameType.StatesRuntime.to_name
                cause := cause } } }

/-- The outcome of `_get_wait_seconds`: the validated raw value and the
environment on a normal return, a raised failure event and the
environment on validation failure, or a raw `IndexError` from indexing
an empty stack (which is not a failure event). -/
inductive ResolveResult where
  | ok (seconds : JsonValue) (env : Environment) : ResolveResult
  | failure (event : FailureEvent) (env : Environment) : ResolveResult
  | indexError : ResolveResult

/-- The stack contents after resolution, when resolution did not abort
with a raw indexing error. -/
def ResolveResult.stackAfter : ResolveResult → Option (List JsonValue)
  | ResolveResult.ok _ env => some env.stack
  | ResolveResult.failure _ env => some env.stack
  | ResolveResult.indexError => none

/-- The value-or-failure classification of an outcome, ignoring the
environment: `Sum.inl` the returned seconds, `Sum.inr` the failure
event. -/
def ResolveResult.outcome : ResolveResult → Option (JsonValue ⊕ FailureEvent)
  | ResolveResult.ok s _ => some (Sum.inl s)
  | ResolveResult.failure e _ => some (Sum.inr e)
  | ResolveResult.indexError => none

/-- `SecondsPath._get_wait_seconds`: read `env.stack[-1]` (without
popping), extract the configured path against it, validate, and return
the raw value.  Parameterised by the external `extract_json`. -/
def SecondsPath.get_wait_seconds (path : String)
    (extract_json : String → JsonValue → JsonValue) (env : Environment) :
    ResolveResult :=
  match env.stack with
  | [] => ResolveResult.indexError
  | inp :: _ =>
    let seconds := extract_json path inp
    match SecondsPath.validate_seconds_value path seconds with
    | Except.ok _ => ResolveResult.ok seconds env
    | Except.error e => ResolveResult.failure e env

/-- `SecondsPathVar._get_wait_seconds`: `variable_sample.eval(env)`
pushes exactly one result onto the stack (external contract of the
shared expression-evaluation protocol, here the parameter
`sample_value`); then `env.stack.pop()` consumes it and the inherited
validator of `SecondsPath` runs with `self.path` set to the variable
expression's text (as assigned by `SecondsPathVar.__init__`). -/
def SecondsPathVar.get_wait_seconds (expression : String)
    (sample_value : JsonValue) (env : Environment) : ResolveResult :=
  let envPushed : Environment := { stack := sample_value :: env.stack }
  match envPushed.stack with
  | [] => ResolveResult.indexError
  | seconds :: rest =>
    let envPopped : Environment := { stack := rest }
    match SecondsPath.validate_seconds_value expression seconds with
    | Except.ok _ => ResolveResult.ok seconds envPopped
    | Except.error e => ResolveResult.failure e envPopped

/-- State-threaded translation of the path-based resolver as a method of
its configuration: the body of `_get_wait_seconds` contains no
assignment to `self.path`, so the threaded configuration comes back
unchanged. -/
def SecondsPath.resolve (self : SecondsPathConfig)
    (extract_json : String → JsonValue → JsonValue) (env : Environment) :
    ResolveResult × SecondsPathConfig :=
  (SecondsPath.get_wait_seconds self.path extract_json env, self)

/-- C1: for every non-negative integer `n`, when the extracted raw value
is the integer `n`, both the path-based and the variable-based resolver
return `n` exactly and unchanged (no rounding, no clamping), leaving the
environment as the resolver's semantics dictates. -/
theorem C1_nonneg_integer_returned_exact (n : Int) (hn : 0 ≤ n)
    (path : String) (extract_json : String → JsonValue → JsonValue)
    (env : Environment) (inp : JsonValue) (rest : List JsonValue)
    (hstack : env.stack = inp :: rest)
    (hx : extract_json path inp = JsonValue.int n) :
    SecondsPath.get_wait_seconds path extract_json env
        = ResolveResult.ok (JsonValue.int n) env
      ∧ SecondsPathVar.get_wait_seconds path (JsonValue.int n) env
        = ResolveResult.ok (JsonValue.int n) env := by
  constructor
  · simp [SecondsPath.get_wait_seconds, hstack, hx,
      SecondsPath.validate_seconds_value, isinstance_int, pyIntValue, hn]
  · simp [SecondsPathVar.get_wait_seconds,
      SecondsPath.validate_seconds_value, isinstance_int, pyIntValue, hn]

/-- Witness for C1 at the spec scenario: document `\x7b"wait": 5\x7d`,
path `$.wait`, extraction yielding `5`. -/
theorem C1_nonneg_integer_returned_exact_witness :
    SecondsPath.get_wait_seconds "$.wait" (fun _ _ => JsonValue.int 5)
        { stack := [JsonValue.obj [("wait", JsonValue.int 5)]] }
        = ResolveResult.ok (JsonValue.int 5)
            { stack := [JsonValue.obj [("wait", JsonValue.int 5)]] }
      ∧ SecondsPathVar.get_wait_seconds "$.wait" (JsonValue.int 5)
          { stack := [JsonValue.obj [("wait", JsonValue.int 5)]] }
        = ResolveResult.ok (JsonValue.int 5)
            { stack := [JsonValue.obj [("wait", JsonValue.int 5)]] } :=
  C1_nonneg_integer_returned_exact 5 (by decide) "$.wait"
    (fun _ _ => JsonValue.int 5)
    { stack := [JsonValue.obj [("wait", JsonValue.int 5)]] }
    (JsonValue.obj [("wait", JsonValue.int 5)]) [] rfl rfl

/-- C2: for every negative integer `n`, when the extracted raw value is
the integer `n`, both resolver variants raise a failure event (never an
ordinary return) whose cause string is exactly
`"The SecondsPath parameter references a negative value: <path> == <value>"`
with the configured path text and the value substituted. -/
theorem C2_negative_value_failure (n : Int) (hn : n < 0)
    (path : String) (extract_json : String → JsonValue → JsonValue)
    (env : Environment) (inp : JsonValue) (rest : List JsonValue)
    (hstack : env.stack = inp :: rest)
    (hx : extract_json path inp = JsonValue.int n) :
    SecondsPath.get_wait_seconds path extract_json env
        = ResolveResult.failure
            { error_name := { typ := StatesErrorNameType.StatesRuntime }
              event_type := HistoryEventType.ExecutionFailed
              event_details :=
                { executionFailedEventDetails :=
                    { error := "States.Runtime"
                      cause :=
                        "The SecondsPath parameter references a negative value: "
                          ++ path ++ " == " ++ toString n } } } env
      ∧ SecondsPathVar.get_wait_seconds path (JsonValue.int n) env
        = ResolveResult.failure
            { error_name := { typ := StatesErrorNameType.StatesRuntime }
              event_type := HistoryEventType.ExecutionFailed
              event_details :=
                { executionFailedEventDetails :=
                    { error := "States.Runtime"
                      cause :=
                        "The SecondsPath parameter references a negative value: "
                          ++ path ++ " == " ++ toString n } } } env := by
  have h0 : ¬ (0 : Int) ≤ n := not_le.mpr hn
  constructor
  · simp [SecondsPath.get_wait_seconds, hstack, hx,
      SecondsPath.validate_seconds_value, isinstance_int, pyIntValue, h0,
      pyStr, pyRepr, StatesErrorNameType.to_name, String.append_assoc]
  · simp [SecondsPathVar.get_wait_seconds,
      SecondsPath.validate_seconds_value, isinstance_int, pyIntValue, h0,
      pyStr, pyRepr, StatesErrorNameType.to_name, String.append_assoc]

/-- Witness for C2 at the spec scenario: document `\x7b"wait": -1\x7d`,
path `$.wait`, extraction yielding `-1`; the cause is
`"$.wait == -1"` prefixed by the negative-value message. -/
theorem C2_negative_value_failure_witness :
    SecondsPath.get_wait_seconds "$.wait" (fun _ _ => JsonValue.int (-1))
        { stack := [JsonValue.obj [("wait", JsonValue.int (-1))]] }
        = ResolveResult.failure
            { error_name := { typ := StatesErrorNameType.StatesRuntime }
              event_type := HistoryEventType.ExecutionFailed
              event_details :=
                { executionFailedEventDetails :=
                    { error := "States.Runtime"
                      cause :=
                        "The SecondsPath parameter references a negative value: $.wait == -1" } } }
            { stack := [JsonValue.obj [("wait", JsonValue.int (-1))]] }
      ∧ SecondsPathVar.get_wait_seconds "$.wait" (JsonValue.int (-1))
          { stack := [JsonValue.obj [("wait", JsonValue.int (-1))]] }
        = ResolveResult.failure
            { error_name := { typ := StatesErrorNameType.StatesRuntime }
              event_type := HistoryEventType.ExecutionFailed
              event_details :=
                { executionFailedEventDetails :=
                    { error := "States.Runtime"
                      cause :=
                        "The SecondsPath parameter references a negative value: $.wait == -1" } } }
            { stack := [JsonValue.obj [("wait", JsonValue.int (-1))]] } :=
  C2_negative_value_failure (-1) (by decide) "$.wait"
    (fun _ _ => JsonValue.int (-1))
    { stack := [JsonValue.obj [("wait", JsonValue.int (-1))]] }
    (JsonValue.obj [("wait", JsonValue.int (-1))]) [] rfl rfl

/-- C3: for every resolved value that is not a Python `int` instance
(strings, floats — including floats with a zero fractional part such as
`3.0` — lists, objects, null), both resolver variants raise a failure
event whose cause string is exactly
`"The SecondsPath parameter cannot be parsed as a long value: <path> == <value>"`
with the path text and the offending value rendered by Python `str`;
no truncation or coercion is performed. -/
theorem C3_non_integral_failure (v : JsonValue)
    (hv : isinstance_int v = false)
    (path : String) (extract_json : String → JsonValue → JsonValue)
    (env : Environment) (inp : JsonValue) (rest : List JsonValue)
    (hstack : env.stack = inp :: rest)
    (hx : extract_json path inp = v) :
    SecondsPath.get_wait_seconds path extract_json env
        = ResolveResult.failure
            { error_name := { typ := StatesErrorNameType.StatesRuntime }
              event_type := HistoryEventType.ExecutionFailed
              event_details :=
                { executionFailedEventDetails :=
                    { error := "States.Runtime"
                      cause :=
                        "The SecondsPath parameter cannot be parsed as a long value: "
                          ++ path ++ " == " ++ pyStr v } } } env
      ∧ SecondsPathVar.get_wait_seconds path v env
        = ResolveResult.failure
            { error_name := { typ := StatesErrorNameType.StatesRuntime }
              event_type := HistoryEventType.ExecutionFailed
              event_details :=
                { executionFailedEventDetails :=
                    { error := "States.Runtime"
                      cause :=
                        "The SecondsPath parameter cannot be parsed as a long value: "
                          ++ path ++ " == " ++ pyStr v } } } env := by
  constructor
  · simp [SecondsPath.get_wait_seconds, hstack, hx,
      SecondsPath.validate_seconds_value, hv,
      StatesErrorNameType.to_name, String.append_assoc]
  · simp [SecondsPathVar.get_wait_seconds,
      SecondsPath.validate_seconds_value, hv,
      StatesErrorNameType.to_name, String.append_assoc]

/-- Witness for C3 at the spec scenario: document `\x7b"wait": 3.0\x7d`,
path `$.wait`, extraction yielding the float `3.0` (zero fractional
part), which is rejected without truncation. -/
theorem C3_non_integral_failure_witness :
    SecondsPath.get_wait_seconds "$.wait" (fun _ _ => JsonValue.float "3.0")
        { stack := [JsonValue.obj [("wait", JsonValue.float "3.0")]] }
        = ResolveResult.failure
            { error_name := { typ := StatesErrorNameType.StatesRuntime }
              event_type := HistoryEventType.ExecutionFailed
              event_details :=
                { executionFailedEventDetails :=
                    { error := "States.Runtime"
                      cause :=
                        "The SecondsPath parameter cannot be parsed as a long value: $.wait == 3.0" } } }
            { stack := [JsonValue.obj [("wait", JsonValue.float "3.0")]] }
      ∧ SecondsPathVar.get_wait_seconds "$.wait" (JsonValue.float "3.0")
          { stack := [JsonValue.obj [("wait", JsonValue.float "3.0")]] }
        = ResolveResult.failure
            { error_name := { typ := StatesErrorNameType.StatesRuntime }
              event_type := HistoryEventType.ExecutionFailed
              event_details :=
                { executionFailedEventDetails :=
                    { error := "States.Runtime"
                      cause :=
                        "The SecondsPath parameter cannot be parsed as a long value: $.wait == 3.0" } } }
            { stack := [JsonValue.obj [("wait", JsonValue.float "3.0")]] } :=
  C3_non_integral_failure (JsonValue.float "3.0") rfl "$.wait"
    (fun _ _ => JsonValue.float "3.0")
    { stack := [JsonValue.obj [("wait", JsonValue.float "3.0")]] }
    (JsonValue.obj [("wait", JsonValue.float "3.0")]) [] rfl rfl

/-- C4: what the code actually does on a boolean resolved value.  Python
`isinstance(seconds, int)` is `true` for booleans (`bool` subclasses
`int`), and `True >= 0` and `False >= 0` both hold, so the validator
accepts both booleans and the path-based resolver returns the boolean
itself as the wait duration — contradicting the documented requirement
that booleans be rejected as non-integral. -/
theorem C4_boolean_accepted_by_code :
    SecondsPath.validate_seconds_value "$.wait" (JsonValue.bool true)
        = Except.ok ()
      ∧ SecondsPath.validate_seconds_value "$.wait" (JsonValue.bool false)
        = Except.ok ()
      ∧ SecondsPath.get_wait_seconds "$.wait" (fun _ _ => JsonValue.bool true)
          { stack := [JsonValue.obj [("wait", JsonValue.bool true)]] }
        = ResolveResult.ok (JsonValue.bool true)
            { stack := [JsonValue.obj [("wait", JsonValue.bool true)]] } :=
  ⟨rfl, rfl, rfl⟩

/-- C5: the path-based resolver reads the top of the stack without
popping it: for every environment with a non-empty stack, the stack
contents after `_get_wait_seconds` are identical to the contents before,
on both the success and the validation-failure outcome. -/
theorem C5_path_resolver_preserves_stack (path : String)
    (extract_json : String → JsonValue → JsonValue) (env : Environment)
    (h : env.stack ≠ []) :
    ResolveResult.stackAfter (SecondsPath.get_wait_seconds path extract_json env)
      = some env.stack := by
  match henv : env.stack with
  | [] => exact absurd henv h
  | inp :: rest =>
    simp only [SecondsPath.get_wait_seconds, henv]
    cases SecondsPath.validate_seconds_value path (extract_json path inp) <;>
      simp [ResolveResult.stackAfter, henv]

/-- Witness for C5 on a concrete environment where validation fails
(value `"soon"`): the stack is untouched. -/
theorem C5_path_resolver_preserves_stack_witness :
    ResolveResult.stackAfter
        (SecondsPath.get_wait_seconds "$.wait" (fun _ _ => JsonValue.str "soon")
          { stack := [JsonValue.obj [("wait", JsonValue.str "soon")], JsonValue.null] })
      = some [JsonValue.obj [("wait", JsonValue.str "soon")], JsonValue.null] :=
  C5_path_resolver_preserves_stack "$.wait" (fun _ _ => JsonValue.str "soon")
    { stack := [JsonValue.obj [("wait", JsonValue.str "soon")], JsonValue.null] }
    (by simp)

/-- C6: the variable-based resolver has net-zero stack growth: the
expression evaluation pushes exactly one value (external contract) and
the resolver immediately pops it, so the stack after
`_get_wait_seconds` equals — in depth and in fact in contents — the
stack before, whether resolution succeeds or raises a validation
failure. -/
theorem C6_var_resolver_net_zero_stack (expression : String)
    (sample_value : JsonValue) (env : Environment) :
    ResolveResult.stackAfter
        (SecondsPathVar.get_wait_seconds expression sample_value env)
        = some env.stack
      ∧ Option.map List.length
          (ResolveResult.stackAfter
            (SecondsPathVar.get_wait_seconds expression sample_value env))
        = some env.stack.length := by
  have hcontents : ResolveResult.stackAfter
      (SecondsPathVar.get_wait_seconds expression sample_value env)
      = some env.stack := by
    simp only [SecondsPathVar.get_wait_seconds]
    cases SecondsPath.validate_seconds_value expression sample_value <;>
      simp [ResolveResult.stackAfter]
  exact ⟨hcontents, by rw [hcontents]; rfl⟩

/-- C7: the variable-based resolver applies the one shared validator
(`SecondsPath._validate_seconds_value`) with its path field set to the
variable expression's text, so for every raw value it produces exactly
the same value-or-failure classification — including the failure event
with its cause rendered from the expression text — as the path-based
resolver would for that value and that path. -/
theorem C7_var_matches_path_classification (expression : String)
    (v : JsonValue) (env1 env2 : Environment) (h : env1.stack ≠ []) :
    ResolveResult.outcome (SecondsPathVar.get_wait_seconds expression v env2)
      = ResolveResult.outcome
          (SecondsPath.get_wait_seconds expression (fun _ _ => v) env1) := by
  match henv : env1.stack with
  | [] => exact absurd henv h
  | inp :: rest =>
    simp only [SecondsPath.get_wait_seconds, SecondsPathVar.get_wait_seconds, henv]
    cases SecondsPath.validate_seconds_value expression v <;>
      simp [ResolveResult.outcome]

/-- Witness for C7 on a failing raw value (`"soon"`) with distinct
environments for the two variants. -/
theorem C7_var_matches_path_classification_witness :
    ResolveResult.outcome
        (SecondsPathVar.get_wait_seconds "$a" (JsonValue.str "soon")
          { stack := [] })
      = ResolveResult.outcome
          (SecondsPath.get_wait_seconds "$a" (fun _ _ => JsonValue.str "soon")
            { stack := [JsonValue.null] }) :=
  C7_var_matches_path_classification "$a" (JsonValue.str "soon")
    { stack := [JsonValue.null] } { stack := [] } (by simp)

/-- C8: every failure event raised by wait-duration validation — in the
type-validation and in the range-validation case alike — carries the one
runtime error category whose canonical name is `States.Runtime`, has
event type `ExecutionFailed`, and its details record that error name
string together with the cause string. -/
theorem C8_failure_event_shape (path : String) (seconds : JsonValue)
    (ev : FailureEvent)
    (h : SecondsPath.validate_seconds_value path seconds = Except.error ev) :
    ev.error_name.typ = StatesErrorNameType.StatesRuntime
      ∧ ev.error_name.typ.to_name = "States.Runtime"
      ∧ ev.event_type = HistoryEventType.ExecutionFailed
      ∧ ev.event_details.executionFailedEventDetails.error
          = ev.error_name.typ.to_name
      ∧ ev.event_details.executionFailedEventDetails.cause = ev.cause := by
  rw [SecondsPath.validate_seconds_value] at h
  split at h
  · cases h
  · injection h with h'
    subst h'
    exact ⟨rfl, rfl, rfl, rfl, rfl⟩

/-- The failure event produced at the concrete input of the C8 witness:
path `$.wait`, resolved value the string `soon`. -/
def sampleFailureEvent : FailureEvent :=
  { error_name := { typ := StatesErrorNameType.StatesRuntime }
    event_type := HistoryEventType.ExecutionFailed
    event_details :=
      { executionFailedEventDetails :=
          { error := "States.Runtime"
            cause :=
              "The SecondsPath parameter cannot be parsed as a long value: $.wait == soon" } } }

/-- Witness for C8 at path `$.wait` and resolved value `"soon"`. -/
theorem C8_failure_event_shape_witness :
    sampleFailureEvent.error_name.typ = StatesErrorNameType.StatesRuntime
      ∧ sampleFailureEvent.error_name.typ.to_name = "States.Runtime"
      ∧ sampleFailureEvent.event_type = HistoryEventType.ExecutionFailed
      ∧ sampleFailureEvent.event_details.executionFailedEventDetails.error
          = sampleFailureEvent.error_name.typ.to_name
      ∧ sampleFailureEvent.event_details.executionFailedEventDetails.cause
          = sampleFailureEvent.cause :=
  C8_failure_event_shape "$.wait" (JsonValue.str "soon") sampleFailureEvent rfl

/-- C9: resolution is deterministic and mutation-free with respect to
the wait specification: the state-threaded `resolve` hands the
configuration back unchanged (the method body never assigns to
`self.path`), and resolving again with the returned configuration
against an environment holding identical input data yields an identical
result — same returned seconds or same failure event contents. -/
theorem C9_resolve_idempotent_config_immutable (self : SecondsPathConfig)
    (extract_json : String → JsonValue → JsonValue)
    (env env' : Environment) (h : env.stack = env'.stack) :
    (SecondsPath.resolve self extract_json env).2 = self
      ∧ (SecondsPath.resolve (SecondsPath.resolve self extract_json env).2
            extract_json env').1
          = (SecondsPath.resolve self extract_json env).1 := by
  have henv : env = env' := by
    cases env
    cases env'
    cases h
    rfl
  subst henv
  exact ⟨rfl, rfl⟩

/-- Witness for C9 at a concrete configuration and two environments
holding the same input data. -/
theorem C9_resolve_idempotent_config_immutable_witness :
    (SecondsPath.resolve { path := "$.wait" } (fun _ _ => JsonValue.int 5)
        { stack := [JsonValue.obj [("wait", JsonValue.int 5)]] }).2
        = { path := "$.wait" }
      ∧ (SecondsPath.resolve
            (SecondsPath.resolve { path := "$.wait" }
              (fun _ _ => JsonValue.int 5)
              { stack := [JsonValue.obj [("wait", JsonValue.int 5)]] }).2
            (fun _ _ => JsonValue.int 5)
            { stack := [JsonValue.obj [("wait", JsonValue.int 5)]] }).1
          = (SecondsPath.resolve { path := "$.wait" }
              (fun _ _ => JsonValue.int 5)
              { stack := [JsonValue.obj [("wait", JsonValue.int 5)]] }).1 :=
  C9_resolve_idempotent_config_immutable { path := "$.wait" }
    (fun _ _ => JsonValue.int 5)
    { stack := [JsonValue.obj [("wait", JsonValue.int 5)]] }
    { stack := [JsonValue.obj [("wait", JsonValue.int 5)]] } rfl

/-- C10: the path-based resolver indexes the top of the stack unguarded:
it yields the raw indexing error (never converted into a failure event)
exactly when the evaluation stack is empty, so on every environment with
a non-empty stack the out-of-bounds branch is unreachable. -/
theorem C10_empty_stack_raw_index_error (path : String)
    (extract_json : String → JsonValue → JsonValue) (env : Environment) :
    SecondsPath.get_wait_seconds path extract_json env = ResolveResult.indexError
      ↔ env.stack = [] := by
  match henv : env.stack with
  | [] => simp [SecondsPath.get_wait_seconds, henv]
  | inp :: rest =>
    simp only [SecondsPath.get_wait_seconds, henv]
    cases SecondsPath.validate_seconds_value path (extract_json path inp) <;>
      simp
